import Mathlib

/-
Verification development for the OLAP query-planning and execution engine
(star-schema sales analytics: dimensional query building, hierarchy
navigation, KPI computation, anomaly detection, rule-based planning, and
plan execution).

The Python source is shallowly embedded: Python dicts/JSON-ish values are
modelled by `PyVal`, pandas DataFrames by lists of rows, floats by `ℚ`
(with NaN modelled as an absent `Option` value where the code relies on
NaN propagation), and Python exceptions by `Except`.  Python's
`round(x, k)` uses banker's rounding; the embedding uses `round` on `ℚ`
(half-up), which agrees everywhere except exact half-way ties, and all
concrete inputs used below stay away from ties.
-/

set_option maxRecDepth 4000

/-- A Python/JSON-ish value: numbers (ints and floats as `ℚ`), strings,
`None`, lists, and string-keyed dicts (entries kept in insertion order). -/
inductive PyVal where
  | num (q : ℚ)
  | str (s : String)
  | vnone
  | vlist (vs : List PyVal)
  | vdict (es : List (String × PyVal))
deriving Repr

/-- A result-table row: column name to cell value, in column order
(embedding of one pandas DataFrame record). -/
def DFRow : Type := List (String × PyVal)

/-- A result table: ordered rows (embedding of a pandas DataFrame). -/
def DataFrame : Type := List DFRow

/-- Embedding of `backend.agents.base.AgentOutput`: the structured output
returned by every agent.  `data = none` models `data=None` (no result
table); metadata is a dict. -/
structure AgentOutput where
  agent : String
  operation : String
  sql : String
  data : Option DataFrame
  summary : String
  error : Option String
  metadata : List (String × PyVal)

/-- Embedding of `backend.agents.base.AgentInput`. -/
structure AgentInput where
  operation : String
  parameters : PyVal
  context : Option String

/-- One step of an execution plan: `{agent, operation, parameters}` as
produced by the planner and consumed by the orchestrator. -/
structure PlanStep where
  agent : String
  operation : String
  parameters : PyVal

/-- ASCII lowercasing of a string, embedding Python's `str.lower()` on the
ASCII inputs this system uses. -/
def lowerStr (s : String) : String := ⟨s.data.map Char.toLower⟩

/-- Check that the first list starts the second (helper for the substring
test below). -/
def leadsWith : List Char → List Char → Bool
  | [], _ => true
  | _ :: _, [] => false
  | a :: as, b :: bs => a == b && leadsWith as bs

/-- Check that the first list occurs contiguously inside the second. -/
def containsSub (pat : List Char) : List Char → Bool
  | [] => leadsWith pat []
  | c :: rest => leadsWith pat (c :: rest) || containsSub pat rest

/-- Substring test: embedding of Python's `pat in s`. -/
def containsStr (s pat : String) : Bool := containsSub pat.data s.data

/-- Replace every dash by an underscore, embedding `.replace("-", "_")`
(the pattern is a single character, so a character map is equivalent). -/
def replaceDash (s : String) : String :=
  ⟨s.data.map (fun c => if c = '-' then '_' else c)⟩

/-- A single-quote character as a string (used inside message templates). -/
def quoteS : String := String.singleton (Char.ofNat 39)

/-- Round to 2 decimals, embedding `round(x, 2)` / SQL `ROUND(x, 2)`:
scale by 100, round to the nearest integer (half rounds up), scale back. -/
def round2 (x : ℚ) : ℚ := (⌊x * 100 + 1 / 2⌋ : ℤ) / 100

/-! ## Hierarchy navigator (`backend/agents/dimension_navigator.py`) -/

/-- One OLAP hierarchy: ordered levels (coarse to fine), display labels,
and physical column references, as in the `HIERARCHIES` constant. -/
structure Hierarchy where
  levels : List String
  labels : List String
  columns : List String
deriving Repr, DecidableEq

/-- The `"time"` hierarchy from `HIERARCHIES`. -/
def timeHierarchy : Hierarchy :=
  ⟨["year", "quarter", "month"], ["Year", "Quarter", "Month"],
   ["d.year", "d.quarter", "d.month_name"]⟩

/-- The `"geography"` hierarchy from `HIERARCHIES`. -/
def geoHierarchy : Hierarchy :=
  ⟨["region", "country"], ["Region", "Country"], ["g.region", "g.country"]⟩

/-- The `"product"` hierarchy from `HIERARCHIES`. -/
def productHierarchy : Hierarchy :=
  ⟨["category", "subcategory"], ["Category", "Subcategory"],
   ["p.category", "p.subcategory"]⟩

/-- The `HIERARCHIES` dict (insertion order preserved). -/
def HIERARCHIES : List (String × Hierarchy) :=
  [("time", timeHierarchy), ("geography", geoHierarchy),
   ("product", productHierarchy)]

/-- Embedding of `HIERARCHIES.get(hierarchy, HIERARCHIES["time"])`: an
unknown hierarchy name silently falls back to the time hierarchy. -/
def lookupHierarchy (name : String) : Hierarchy :=
  (HIERARCHIES.lookup name).getD timeHierarchy

/-- First index of an element in a list (`list.index`, as an `Option`). -/
def indexOfAux : List String → String → Option Nat
  | [], _ => none
  | a :: rest, lvl =>
      if a = lvl then some 0 else (indexOfAux rest lvl).map (· + 1)

/-- Embedding of `h["levels"].index(to_level)` guarded by
`try/except ValueError`: first index of the level, or the given default
when the level is absent. -/
def levelIndexD (levels : List String) (lvl : String) (dflt : Nat) : Nat :=
  (indexOfAux levels lvl).getD dflt

/-- Level index resolved by `_drill_down`: unknown levels fall back to the
finest level (`len(levels) - 1`). -/
def drillDownIdx (hierarchyName : Option String) (toLevel : Option String) : Nat :=
  let h := lookupHierarchy (hierarchyName.getD "time")
  let lvl := toLevel.getD (h.levels.getLastD "")
  levelIndexD h.levels lvl (h.levels.length - 1)

/-- Grouping columns produced by `_drill_down`:
`h["columns"][: to_idx + 1]`. -/
def drillDownGroupCols (hierarchyName : Option String) (toLevel : Option String) :
    List String :=
  (lookupHierarchy (hierarchyName.getD "time")).columns.take
    (drillDownIdx hierarchyName toLevel + 1)

/-- Level index resolved by `_roll_up`: unknown levels fall back to the
coarsest level (index 0). -/
def rollUpIdx (hierarchyName : Option String) (toLevel : Option String) : Nat :=
  let h := lookupHierarchy (hierarchyName.getD "time")
  let lvl := toLevel.getD (h.levels.headD "")
  levelIndexD h.levels lvl 0

/-- Grouping columns produced by `_roll_up`:
`h["columns"][: to_idx + 1]`. -/
def rollUpGroupCols (hierarchyName : Option String) (toLevel : Option String) :
    List String :=
  (lookupHierarchy (hierarchyName.getD "time")).columns.take
    (rollUpIdx hierarchyName toLevel + 1)

/-! ## Filter compilers -/

/-- The dimension catalog `col_map` used by
`dimension_navigator._build_filter_clause` and `_group_by`. -/
def navColMap : List (String × String) :=
  [("year", "d.year"), ("quarter", "d.quarter"), ("month", "d.month_name"),
   ("region", "g.region"), ("country", "g.country"),
   ("category", "p.category"), ("subcategory", "p.subcategory"),
   ("customer_segment", "c.customer_segment")]

/-- The dimension catalog `COL_MAP` of `cube_operations.py` (adds
`month_num`). -/
def cubeColMap : List (String × String) :=
  [("year", "d.year"), ("quarter", "d.quarter"), ("month", "d.month_name"),
   ("month_num", "d.month"),
   ("region", "g.region"), ("country", "g.country"),
   ("category", "p.category"), ("subcategory", "p.subcategory"),
   ("customer_segment", "c.customer_segment")]

/-- The dimension catalog `COL_MAP` of `kpi_calculator.py`. -/
def kpiColMap : List (String × String) :=
  [("year", "d.year"), ("quarter", "d.quarter"), ("month", "d.month_name"),
   ("region", "g.region"), ("country", "g.country"),
   ("category", "p.category"), ("subcategory", "p.subcategory"),
   ("customer_segment", "c.customer_segment")]

/-- Membership test for a dict value: embedding of `"k" in val`. -/
def dictHasKey (es : List (String × PyVal)) (k : String) : Bool :=
  (es.lookup k).isSome

/-- Dict access `val[k]` (total, with a default that is never reached when
guarded by `dictHasKey`). -/
def dictGet (es : List (String × PyVal)) (k : String) : PyVal :=
  (es.lookup k).getD PyVal.vnone

/-- One iteration of the loop in `cube_operations._build_where`: appends
the predicate and binds contributed by one filter entry.  Unknown
dimension keys contribute nothing; a list value becomes a membership
predicate with one bind per element (order preserved); a dict with `gte`
(checked first) or `lte` becomes a one-sided inequality with one bind;
anything else becomes an equality predicate with one bind. -/
def cubeWhereStep (acc : List String × List PyVal) (entry : String × PyVal) :
    List String × List PyVal :=
  match cubeColMap.lookup entry.1 with
  | none => acc
  | some col =>
    match entry.2 with
    | PyVal.vlist vs =>
        (acc.1 ++ [col ++ " IN (" ++
           String.intercalate "," (List.replicate vs.length "?") ++ ")"],
         acc.2 ++ vs)
    | PyVal.vdict es =>
        if dictHasKey es "gte" then
          (acc.1 ++ [col ++ " >= ?"], acc.2 ++ [dictGet es "gte"])
        else if dictHasKey es "lte" then
          (acc.1 ++ [col ++ " <= ?"], acc.2 ++ [dictGet es "lte"])
        else
          (acc.1 ++ [col ++ " = ?"], acc.2 ++ [entry.2])
    | v => (acc.1 ++ [col ++ " = ?"], acc.2 ++ [v])

/-- Embedding of `cube_operations._build_where`: conditions and positional
binds accumulated over the filter entries in order. -/
def cubeBuildWhere (filters : List (String × PyVal)) :
    List String × List PyVal :=
  filters.foldl cubeWhereStep ([], [])

/-- One iteration of the loop in
`dimension_navigator._build_filter_clause`: only list membership and
equality are distinguished — there is no range branch, so a `gte`/`lte`
dict falls into the equality case (bound as-is). -/
def navWhereStep (acc : List String × List PyVal) (entry : String × PyVal) :
    List String × List PyVal :=
  match navColMap.lookup entry.1 with
  | none => acc
  | some col =>
    match entry.2 with
    | PyVal.vlist vs =>
        (acc.1 ++ [col ++ " IN (" ++
           String.intercalate "," (List.replicate vs.length "?") ++ ")"],
         acc.2 ++ vs)
    | v => (acc.1 ++ [col ++ " = ?"], acc.2 ++ [v])

/-- Embedding of `dimension_navigator._build_filter_clause` (conditions
and binds; the `WHERE` text assembly is `whereClause` below). -/
def navBuildWhere (filters : List (String × PyVal)) :
    List String × List PyVal :=
  filters.foldl navWhereStep ([], [])

/-- One iteration of the loop in `kpi_calculator._build_where` (same
shape as the navigator's: list membership or equality, no range branch). -/
def kpiWhereStep (acc : List String × List PyVal) (entry : String × PyVal) :
    List String × List PyVal :=
  match kpiColMap.lookup entry.1 with
  | none => acc
  | some col =>
    match entry.2 with
    | PyVal.vlist vs =>
        (acc.1 ++ [col ++ " IN (" ++
           String.intercalate "," (List.replicate vs.length "?") ++ ")"],
         acc.2 ++ vs)
    | v => (acc.1 ++ [col ++ " = ?"], acc.2 ++ [v])

/-- Embedding of `kpi_calculator._build_where`. -/
def kpiBuildWhere (filters : List (String × PyVal)) :
    List String × List PyVal :=
  filters.foldl kpiWhereStep ([], [])

/-- Dispatch of `DimensionNavigatorAgent.run`: strict — an operation
outside {drill_down, drill-down, roll_up, roll-up, group} yields an error
output. -/
def navRunSelect (op : String) : Sum AgentOutput String :=
  let o := lowerStr op
  if o = "drill_down" || o = "drill-down" then Sum.inr "_drill_down"
  else if o = "roll_up" || o = "roll-up" then Sum.inr "_roll_up"
  else if o = "group" then Sum.inr "_group_by"
  else Sum.inl ⟨"DimensionNavigator", o, "", none, "",
    some ("Unknown operation " ++ quoteS ++ o ++ quoteS ++
      ". Supported: drill_down, roll_up, group"), []⟩

/-- Dispatch of `CubeOperationsAgent.run`: strict — an operation outside
{slice, dice, pivot, drill_through} (after lower-casing and dash
replacement) yields an error output. -/
def cubeRunSelect (op : String) : Sum AgentOutput String :=
  let o := replaceDash (lowerStr op)
  if o = "slice" then Sum.inr "_slice"
  else if o = "dice" then Sum.inr "_dice"
  else if o = "pivot" then Sum.inr "_pivot"
  else if o = "drill_through" then Sum.inr "_drill_through"
  else Sum.inl ⟨"CubeOperations", o, "", none, "",
    some ("Unknown op " ++ quoteS ++ o ++ quoteS ++
      ". Supported: slice, dice, pivot, drill_through"), []⟩

/-- The dispatch dict of `KPICalculatorAgent.run`. -/
def kpiDispatchTable : List (String × String) :=
  [("yoy", "_yoy_growth"), ("yoy_growth", "_yoy_growth"),
   ("mom", "_mom_change"), ("mom_change", "_mom_change"),
   ("compare", "_compare_periods"), ("compare_periods", "_compare_periods"),
   ("top_n", "_top_n"), ("ranking", "_top_n"),
   ("margins", "_profit_margins"), ("profit_margins", "_profit_margins"),
   ("summary", "_overall_summary")]

/-- Dispatch of `KPICalculatorAgent.run`: lenient —
`dispatch.get(op, self._overall_summary)` silently routes every unknown
operation to the overall summary handler. -/
def kpiRunSelect (op : String) : Sum AgentOutput String :=
  Sum.inr ((kpiDispatchTable.lookup (replaceDash (lowerStr op))).getD
    "_overall_summary")

/-- Dispatch of `AnomalyDetectionAgent.run`: lenient — the final `else`
routes unknown operations to the monthly anomaly handler. -/
def anomalyRunSelect (op : String) : Sum AgentOutput String :=
  let o := lowerStr op
  if o = "time_anomaly" || o = "monthly" then Sum.inr "_monthly_anomaly"
  else if o = "product_anomaly" || o = "product" then
    Sum.inr "_product_anomaly"
  else Sum.inr "_monthly_anomaly"

/-- Dispatch of `ReportGeneratorAgent.run`: lenient — the final `else`
routes unknown operations to the executive summary handler. -/
def reportRunSelect (op : String) : Sum AgentOutput String :=
  let o := replaceDash (lowerStr op)
  if o = "format_table" || o = "table" then Sum.inr "_format_table"
  else if o = "executive_summary" || o = "summary" || o = "narrative" then
    Sum.inr "_executive_summary"
  else if o = "trend_report" || o = "trend" then Sum.inr "_trend_report"
  else Sum.inr "_executive_summary"

/-- Dispatch of `VisualizationAgent.run`: the operation name is never
inspected — every call runs the visualization body. -/
def vizRunSelect (_op : String) : Sum AgentOutput String :=
  Sum.inr "visualize"

/-! ## KPI engine (`backend/agents/kpi_calculator.py`) -/

/-- Growth column of `_yoy_growth` over one time-ordered revenue series:
the first point has no growth value (`prev` is `None`); after that
`growth = (cur - prev) / prev * 100` rounded to 2 decimals, except that a
zero previous value also yields an absent value (Python's `if prev` is
false both for `None` and for `0`). -/
def yoyGrowthList : List ℚ → List (Option ℚ)
  | [] => []
  | v :: rest =>
      none :: List.zipWith
        (fun prev cur =>
          if prev = 0 then none
          else some (round2 ((cur - prev) / prev * 100)))
        (v :: rest) rest

/-- Partitioned `_yoy_growth`: each `groupby("dim_label")` partition is
processed independently with its own restarted `prev` pointer (each
partition's series is its time-ordered revenue list). -/
def yoyGrowthGrouped (groups : List (String × List ℚ)) :
    List (String × List (Option ℚ)) :=
  groups.map (fun g => (g.1, yoyGrowthList g.2))

/-- One output row of the grouped branch of `_compare_periods` after the
inner merge: `revenue_change_pct` is absent (pandas NaN, from
`.replace(0, nan)`) when the period-A revenue is zero. -/
structure GroupedCmpRow where
  dimension : String
  revenueA : ℚ
  revenueB : ℚ
  revenueChange : ℚ
  revenueChangePct : Option ℚ
deriving Repr, DecidableEq

/-- Grouped branch of `_compare_periods` given the two periods' per-group
revenue tables (grouping key unique per table, as `GROUP BY` guarantees):
pandas' inner `merge` on the shared key keeps period-A row order and drops
groups present in only one period. -/
def mergedCompare (dfA dfB : List (String × ℚ)) : List GroupedCmpRow :=
  dfA.filterMap (fun ra =>
    (dfB.lookup ra.1).map (fun rb =>
      ⟨ra.1, ra.2, rb, round2 (rb - ra.2),
       if ra.2 = 0 then none
       else some (round2 ((rb - ra.2) / ra.2 * 100))⟩))

/-- The single output row of the ungrouped branch of `_compare_periods`.
Note `changePct` is a plain number: this branch computes
`(change / rev_a * 100) if rev_a else 0`, so a zero base yields the
number `0`, not an absent value. -/
structure ScalarCmpRow where
  periodA : String
  revenueA : ℚ
  periodB : String
  revenueB : ℚ
  change : ℚ
  changePct : ℚ
deriving Repr, DecidableEq

/-- Ungrouped branch of `_compare_periods` given each period's revenue
rows (`row_a.get("revenue", 0)` defaults to 0 on an empty table). -/
def scalarCompare (labelA labelB : String) (dfA dfB : List ℚ) :
    ScalarCmpRow :=
  let ra := dfA.headD 0
  let rb := dfB.headD 0
  let change := rb - ra
  let pct := if ra ≠ 0 then change / ra * 100 else 0
  ⟨labelA, ra, labelB, rb, round2 change, round2 pct⟩

/-! ## Anomaly engine (`backend/agents/anomaly_detection.py`)

`_monthly_anomaly` computes `std = df["monthly_revenue"].std()` — the
pandas default is the *sample* standard deviation (`ddof=1`) — stores
`z_score = ((value - mean) / std).round(3)` (numpy half-to-even
rounding), flags `z_score.abs() > 2.0`, and classifies from the same
rounded column.  The flag on the rounded value is exactly a flag on the
unrounded `z` at the threshold `4001/2000` (= 2.0005): `round(z·1000)`
exceeds 2000 iff `z·1000 > 2000.5`, the tie itself rounding to the even
2000 — this characterisation of half-even rounding is proved in the C7
theorem below.  Because `z` involves a square root, the embedding
carries the variance and encodes `|z| > 4001/2000` by its exact square
form `4001² · var < 2000² · (v - mean)²` (equivalent whenever
`var > 0`; proved against the real-valued `z` in the theorems below).
When the variance is zero or undefined (constant or too-short series)
pandas produces NaN z-scores, whose comparisons are all false, so
nothing is flagged and every type is "Normal"; the embedding's
`var > 0` conjunct models exactly that. -/

/-- Mean of a series (`df.mean()`); the empty series (NaN in pandas) is
out of the claims' scope. -/
def listMean (l : List ℚ) : ℚ := l.sum / (l.length : ℚ)

/-- Sample variance (`ddof=1`, the square of pandas' default `std()`).
For a length-1 series the `ℚ` division by zero gives 0, matching the
"nothing flagged" outcome of pandas' NaN. -/
def sampleVar (l : List ℚ) : ℚ :=
  (l.map (fun v => (v - listMean l) ^ 2)).sum / ((l.length : ℚ) - 1)

/-- Population variance (divide by `n`) — this is what the specification's
words ("population standard deviation") prescribe; named separately so the
code's behaviour can be compared against it. -/
def popVar (l : List ℚ) : ℚ :=
  (l.map (fun v => (v - listMean l) ^ 2)).sum / (l.length : ℚ)

/-- The code's anomaly flag for point `i`.  The source stores
`z_score = ((value - mean) / std).round(3)` and flags
`z_score.abs() > 2.0`, so the flag reads `|round(z·1000)| > 2000` with
numpy's half-to-even rounding.  Since half-even rounding sends the tie
`2000.5` to the even `2000`, that is exactly `|z| > 2000.5/1000`, i.e.
`|z| > 4001/2000` (proved against the rounding characterisation in the
C7 theorem below).  With `z = (v - mean)/sqrt(sampleVar)` this squares
to the exact rational form used here (valid whenever the variance is
positive; a zero or undefined variance gives NaN z-scores in pandas,
whose comparisons are all false — the first conjunct). -/
def zAnomaly (l : List ℚ) (i : Nat) : Prop :=
  0 < sampleVar l ∧
  4001 ^ 2 * sampleVar l < 2000 ^ 2 * (l.getD i 0 - listMean l) ^ 2

instance zAnomalyDec (l : List ℚ) (i : Nat) : Decidable (zAnomaly l i) :=
  inferInstanceAs (Decidable (0 < sampleVar l ∧
    4001 ^ 2 * sampleVar l < 2000 ^ 2 * (l.getD i 0 - listMean l) ^ 2))

/-- The code's `anomaly_type` for point `i`, computed from the rounded
`z_score` column: "High" when `round(z, 3) > 2`, "Low" when
`round(z, 3) < -2`, otherwise "Normal" (NaN z-scores fall through to
"Normal").  `round(z, 3) > 2` is `z > 4001/2000` — the flag condition
with the sign of `value - mean` positive — so the flagged point's type
is decided by that sign, and an unflagged point is "Normal". -/
def zAnomalyType (l : List ℚ) (i : Nat) : String :=
  if zAnomaly l i then
    (if listMean l < l.getD i 0 then "High" else "Low")
  else "Normal"

/-- Modelled from the spec: the anomaly flag the specification describes,
with the *population* standard deviation (named for comparison with
`zAnomaly`). -/
def popAnomaly (l : List ℚ) (i : Nat) : Prop :=
  0 < popVar l ∧ 4 * popVar l < (l.getD i 0 - listMean l) ^ 2

/-! ## Rule-based fallback planner (`OLAPOrchestrator._rule_based_plan`) -/

/-- Python's `str.title()`: uppercase every character that follows a
non-alphabetic character, lowercase the rest (the boolean carries whether
the previous character was alphabetic). -/
def titleChars : List Char → Bool → List Char
  | [], _ => []
  | c :: rest, prevAlpha =>
      (if prevAlpha then c.toLower else c.toUpper) :: titleChars rest c.isAlpha

/-- Embedding of `str.title()`. -/
def titleStr (s : String) : String := ⟨titleChars s.data false⟩

/-- Whitespace split, embedding Python's `q.split()` (runs of whitespace
collapse, no empty tokens). -/
def splitWs (s : String) : List String :=
  (s.split Char.isWhitespace).filter (fun t => !t.isEmpty)

/-- Embedding of `word.isdigit()` for ASCII tokens. -/
def isDigits (t : String) : Bool := !t.isEmpty && t.data.all Char.isDigit

/-- Decimal value of an all-digit token (embedding of `int(word)`). -/
def parseNatTok (t : String) : Nat :=
  t.data.foldl (fun a c => a * 10 + (c.toNat - 48)) 0

/-- The `n` of the top-N branch: first all-digit whitespace token of the
query, default 5. -/
def firstDigitToken (q : String) : Nat :=
  (((splitWs q).find? isDigits).map parseNatTok).getD 5

/-- Minimum of a year list (Python `min`, only used when nonempty). -/
def minNat (l : List Nat) : Nat := l.foldr Nat.min (l.headD 0)

/-- Maximum of a year list (Python `max`, only used when nonempty). -/
def maxNat (l : List Nat) : Nat := l.foldr Nat.max (l.headD 0)

/-- The plan dict returned by `_rule_based_plan`. -/
structure RulePlan where
  intent : String
  steps : List PlanStep
  alwaysIncludeReport : Bool
  suggestedFollowups : List String

/-- Embedding of the body of `OLAPOrchestrator._rule_based_plan`:
keyword-priority classification over the lower-cased query, literal
year/quarter/region/category extraction into a filter dict, one primary
step per matching rule (first match wins), and a KPI summary step when
nothing matches. -/
def ruleBasedPrimarySteps (query : String) : List PlanStep :=
  let q := lowerStr query
  let years : List Nat :=
    [2022, 2023, 2024].filter (fun y => containsStr q (toString y))
  let quarters :=
    ["Q1", "Q2", "Q3", "Q4"].filter (fun t => containsStr q (lowerStr t))
  let regions :=
    ["north america", "europe", "asia pacific", "latin america"].filter
      (fun r => containsStr q r)
  let categories :=
    ["electronics", "furniture", "office supplies", "clothing"].filter
      (fun c => containsStr q c)
  let filters : List (String × PyVal) :=
    (if years.length = 1 then
       [("year", PyVal.num ((years.headD 0 : Nat) : ℚ))]
     else []) ++
    (if quarters.isEmpty then []
     else [("quarter", PyVal.str (quarters.headD ""))]) ++
    (if regions.isEmpty then []
     else [("region", PyVal.str (titleStr (regions.headD "")))]) ++
    (if categories.isEmpty then []
     else [("category", PyVal.str (titleStr (categories.headD "")))])
  let steps : List PlanStep :=
    if containsStr q "compare" || containsStr q "vs" ||
        containsStr q "versus" || containsStr q "growth" then
      if 2 ≤ years.length then
        [⟨"KPICalculator", "compare_periods", PyVal.vdict
          [("period_a", PyVal.vdict [("year", PyVal.num (minNat years : ℚ))]),
           ("period_b", PyVal.vdict [("year", PyVal.num (maxNat years : ℚ))]),
           ("group_by",
            if containsStr q "region" then PyVal.str "region"
            else if containsStr q "categor" then PyVal.str "category"
            else PyVal.vnone)]⟩]
      else
        [⟨"KPICalculator", "yoy_growth", PyVal.vdict
          [("dimension",
            if containsStr q "region" then PyVal.str "region"
            else PyVal.vnone)]⟩]
    else if containsStr q "drill" && (containsStr q "down" ||
        containsStr q "into" || containsStr q "break") then
      let hl0 : String × String := ("time", "quarter")
      let hl1 := if containsStr q "month" then (hl0.1, "month") else hl0
      let hl2 :=
        if containsStr q "country" || containsStr q "countr" then
          ("geography", "country")
        else hl1
      let hl :=
        if containsStr q "subcategor" then ("product", "subcategory")
        else hl2
      [⟨"DimensionNavigator", "drill_down", PyVal.vdict
        [("hierarchy", PyVal.str hl.1), ("to_level", PyVal.str hl.2),
         ("filters", PyVal.vdict filters)]⟩]
    else if containsStr q "top" then
      let n := firstDigitToken q
      let dimension :=
        if containsStr q "countr" then "country"
        else if containsStr q "categor" then "category"
        else if containsStr q "sub" then "subcategory"
        else "region"
      let measure := if containsStr q "profit" then "profit" else "revenue"
      [⟨"KPICalculator", "top_n", PyVal.vdict
        [("n", PyVal.num (n : ℚ)), ("dimension", PyVal.str dimension),
         ("measure", PyVal.str measure),
         ("filters", PyVal.vdict filters)]⟩]
    else if containsStr q "trend" || containsStr q "month" ||
        containsStr q "monthly" then
      [⟨"ReportGenerator", "trend_report", PyVal.vdict
        [("year", PyVal.num ((years.headD 2024 : Nat) : ℚ))]⟩]
    else if containsStr q "slice" || filters.length = 1 then
      let groupBy :=
        if containsStr q "category" || containsStr q "product" then
          "category"
        else "region"
      [⟨"CubeOperations", "slice", PyVal.vdict
        [("filter", PyVal.vdict filters),
         ("group_by", PyVal.vlist [PyVal.str groupBy])]⟩]
    else if containsStr q "dice" || 2 ≤ filters.length then
      let groupBy :=
        if containsStr q "countr" then "country"
        else if containsStr q "sub" then "subcategory"
        else "region"
      [⟨"CubeOperations", "dice", PyVal.vdict
        [("filters", PyVal.vdict filters),
         ("group_by", PyVal.vlist [PyVal.str groupBy])]⟩]
    else if containsStr q "pivot" then
      [⟨"CubeOperations", "pivot", PyVal.vdict
        [("row_dim", PyVal.str "region"), ("col_dim", PyVal.str "year"),
         ("measure", PyVal.str "revenue")]⟩]
    else if containsStr q "anomal" || containsStr q "unusual" ||
        containsStr q "outlier" then
      [⟨"AnomalyDetection", "monthly_anomaly", PyVal.vdict []⟩]
    else if containsStr q "margin" || containsStr q "profit" then
      [⟨"KPICalculator", "profit_margins", PyVal.vdict
        [("dimension",
          PyVal.str (if containsStr q "categor" then "category"
            else "region")),
         ("filters", PyVal.vdict filters)]⟩]
    else if containsStr q "region" || containsStr q "revenue by" then
      [⟨"DimensionNavigator", "group", PyVal.vdict
        [("dimensions", PyVal.vlist [PyVal.str "region"]),
         ("filters", PyVal.vdict filters)]⟩]
    else []
  if steps.isEmpty then
    [(⟨"KPICalculator", "summary", PyVal.vdict []⟩ : PlanStep)]
  else steps

/-- Embedding of the tail of `_rule_based_plan`: the executive-summary
report step is appended unconditionally after the primary steps, and the
plan dict is assembled. -/
def ruleBasedPlan (query : String) (fallbackError : String) : RulePlan :=
  ⟨"Answering: " ++ quoteS ++ query ++ quoteS ++
     (if fallbackError = "" then ""
      else " [rule-based fallback: " ++ fallbackError ++ "]"),
   ruleBasedPrimarySteps query ++ [(⟨"ReportGenerator", "executive_summary",
     PyVal.vdict []⟩ : PlanStep)], true,
   ["Which region has the highest growth?",
    "Show me the top 5 subcategories by profit",
    "Compare 2023 vs 2024 by category"]⟩

/-! ## Plan executor (`OLAPOrchestrator.process`, execution loop) -/

/-- The behaviour of one agent: `run` either returns an output or raises
(`Except.error` models a Python exception escaping `run`). -/
def AgentFun : Type := AgentInput → Except String AgentOutput

/-- One entry of the executed-steps ledger built by `process`. -/
structure LedgerEntry where
  agent : String
  operation : String
  success : Bool
  rowCount : Nat
deriving Repr, DecidableEq

/-- One iteration of the execution loop for one plan step: an
unresolvable agent name is skipped (`none` — dropped from outputs and
ledger); an exception from `run` is caught and converted into a failed
Agent Output with the error populated and no result table. -/
def runPlanStep (agents : String → Option AgentFun) (query : String)
    (s : PlanStep) : Option AgentOutput :=
  (agents s.agent).map (fun run =>
    match run ⟨s.operation, s.parameters, some query⟩ with
    | Except.ok out => out
    | Except.error e => ⟨s.agent, s.operation, "", none, "", some e, []⟩)

/-- The ledger entry recorded for one executed step:
`success = (output.error is None)` and
`row_count = len(output.data) if output.data is not None else 0`. -/
def ledgerOf (s : PlanStep) (o : AgentOutput) : LedgerEntry :=
  ⟨s.agent, s.operation, o.error.isNone, ((o.data.map List.length).getD 0)⟩

/-- The Agent Output list produced by the execution loop of `process`. -/
def processOutputs (agents : String → Option AgentFun) (query : String)
    (plan : List PlanStep) : List AgentOutput :=
  plan.filterMap (runPlanStep agents query)

/-- The executed-steps ledger produced by `process`. -/
def processLedger (agents : String → Option AgentFun) (query : String)
    (plan : List PlanStep) : List LedgerEntry :=
  plan.filterMap (fun s => (runPlanStep agents query s).map (ledgerOf s))

/-- Python truthiness of the error field in `not o.error`: `None` and the
empty string are both falsy. -/
def falsyErr : Option String → Bool
  | none => true
  | some e => e.isEmpty

/-- Narrative assembly of `process`:
`[o.summary for o in outputs if o.summary and not o.error]` joined with
blank lines, or the fixed placeholder when empty. -/
def narrativeOf (outs : List AgentOutput) : String :=
  let ss := (outs.filter (fun o => !o.summary.isEmpty && falsyErr o.error)).map
    (fun o => o.summary)
  if ss.isEmpty then "No results generated."
  else String.intercalate "\n\n" ss

/-- The narrative returned by `process`. -/
def processNarrative (agents : String → Option AgentFun) (query : String)
    (plan : List PlanStep) : String :=
  narrativeOf (processOutputs agents query plan)

/-- Modelled from the spec: the narrative as the claim words it — the
plan-order concatenation of the summaries of exactly the non-error steps
(that produced a summary), with the fixed placeholder when there are
none. -/
def specNarrative (outs : List AgentOutput) : String :=
  let ss := (outs.filter (fun o => o.error.isNone && !o.summary.isEmpty)).map
    (fun o => o.summary)
  if ss.isEmpty then "No results generated."
  else String.intercalate "\n\n" ss

/-- No agent output carries an empty-string error message: separates
Python's truthiness test `not o.error` (false for `None` and `""`) from
`o.error is None`.  Every agent in the source either leaves `error` as
`None` or fills it with a nonempty message, so this holds of every real
agent map. -/
def noBlankErrOutputs (agents : String → Option AgentFun) (query : String)
    (plan : List PlanStep) : Prop :=
  ∀ o ∈ processOutputs agents query plan, o.error = some "" → o.summary = ""

/-- A successful agent output used to exercise the executor. -/
def wOkOutput : AgentOutput :=
  ⟨"KPICalculator", "summary", "SELECT 1", some [], "Hello result", none, []⟩

/-- An agent whose `run` raises (models a step that throws). -/
def wFailFun : AgentFun := fun _ => Except.error "boom"

/-- An agent whose `run` returns a successful output. -/
def wOkFun : AgentFun := fun _ => Except.ok wOkOutput

/-- A two-agent registry: one raising agent, one succeeding agent. -/
def wAgents : String → Option AgentFun := fun n =>
  if n = "FailAgent" then some wFailFun
  else if n = "KPICalculator" then some wOkFun else none

/-- A two-step plan: the first step raises, the second succeeds. -/
def wPlan : List PlanStep :=
  [⟨"FailAgent", "op1", PyVal.vdict []⟩,
   ⟨"KPICalculator", "summary", PyVal.vdict []⟩]

/-! Sanity examples (kept as theorems so they are checked). -/

theorem drillDown_decade_example :
    drillDownGroupCols (some "time") (some "decade") =
      ["d.year", "d.quarter", "d.month_name"] := by decide

theorem rollUp_unknown_example :
    rollUpGroupCols (some "geography") (some "continent") = ["g.region"] := by
  decide

/-! ## Supporting lemmas -/

theorem indexOfAux_eq_none {l : List String} {x : String} (h : x ∉ l) :
    indexOfAux l x = none := by
  induction l with
  | nil => rfl
  | cons a rest ih =>
      simp only [List.mem_cons, not_or] at h
      have ha : ¬ a = x := fun hax => h.1 hax.symm
      simp [indexOfAux, ha, ih h.2]

theorem indexOfAux_first :
    ∀ (l : List String) (x : String) (i : Nat), i < l.length →
      (∀ j, j < i → l.getD j "" ≠ x) → l.getD i "" = x →
      indexOfAux l x = some i := by
  intro l
  induction l with
  | nil => intro x i hi; simp at hi
  | cons a rest ih =>
      intro x i hi hfirst heq
      cases i with
      | zero =>
          simp only [List.getD, List.get?_cons_zero, Option.getD_some] at heq
          simp [indexOfAux, heq]
      | succ i =>
          have ha : ¬ a = x := fun hax => hfirst 0 (Nat.succ_pos i) hax
          have : indexOfAux rest x = some i := by
            refine ih x i (by simpa using hi) ?_ ?_
            · intro j hj
              have := hfirst (j + 1) (Nat.succ_lt_succ hj)
              simpa using this
            · simpa using heq
          simp [indexOfAux, ha, this]

theorem hier_cases (hname : String) (h : Hierarchy)
    (hl : HIERARCHIES.lookup hname = some h) :
    (hname = "time" ∧ h = timeHierarchy) ∨
    (hname = "geography" ∧ h = geoHierarchy) ∨
    (hname = "product" ∧ h = productHierarchy) := by
  simp only [HIERARCHIES, List.lookup] at hl
  split at hl
  · rename_i heq; left
    exact ⟨beq_iff_eq.mp heq, by injection hl with hh; exact hh.symm⟩
  · split at hl
    · rename_i heq; right; left
      exact ⟨beq_iff_eq.mp heq, by injection hl with hh; exact hh.symm⟩
    · split at hl
      · rename_i heq; right; right
        exact ⟨beq_iff_eq.mp heq, by injection hl with hh; exact hh.symm⟩
      · cases hl

/-! ## Claim theorems -/

/-- Claim C5: for every hierarchy and every requested level name absent from its
level list, drill-down resolves to the finest level (all hierarchy
columns) and roll-up to the coarsest (the first column), never failing;
when the level is present (at its first index `i`), the grouping columns
are exactly the prefix of the hierarchy's columns up to and including the
resolved level; and `drill_down("time", "decade")` yields the same
grouping as `to_level="month"`. -/
theorem c5_unknown_level_fallback :
    ∀ (hname : String) (h : Hierarchy), HIERARCHIES.lookup hname = some h →
      (∀ lvl : String, lvl ∉ h.levels →
        drillDownGroupCols (some hname) (some lvl) = h.columns ∧
        rollUpGroupCols (some hname) (some lvl) = h.columns.take 1) ∧
      (∀ (lvl : String) (i : Nat), i < h.levels.length →
        (∀ j, j < i → h.levels.getD j "" ≠ lvl) → h.levels.getD i "" = lvl →
        drillDownGroupCols (some hname) (some lvl) = h.columns.take (i + 1) ∧
        rollUpGroupCols (some hname) (some lvl) = h.columns.take (i + 1)) ∧
      drillDownGroupCols (some "time") (some "decade") =
        drillDownGroupCols (some "time") (some "month") := by
  intro hname h hl
  have hlk : lookupHierarchy hname = h := by simp [lookupHierarchy, hl]
  have hlen : h.columns.length = h.levels.length := by
    rcases hier_cases hname h hl with ⟨_, rfl⟩ | ⟨_, rfl⟩ | ⟨_, rfl⟩ <;> rfl
  have hpos : 0 < h.levels.length := by
    rcases hier_cases hname h hl with ⟨_, rfl⟩ | ⟨_, rfl⟩ | ⟨_, rfl⟩ <;>
      decide
  refine ⟨?_, ?_, by decide⟩
  · intro lvl hnm
    have hnone : indexOfAux h.levels lvl = none := indexOfAux_eq_none hnm
    constructor
    · simp only [drillDownGroupCols, drillDownIdx, Option.getD_some, hlk,
        levelIndexD, hnone, Option.getD_none]
      rw [Nat.sub_add_cancel hpos, ← hlen, List.take_length]
    · simp [rollUpGroupCols, rollUpIdx, hlk, levelIndexD, hnone]
  · intro lvl i hi hfirst heq
    have hidx : indexOfAux h.levels lvl = some i :=
      indexOfAux_first h.levels lvl i hi hfirst heq
    constructor
    · simp [drillDownGroupCols, drillDownIdx, hlk, levelIndexD, hidx]
    · simp [rollUpGroupCols, rollUpIdx, hlk, levelIndexD, hidx]

/-- Witness for C5 at the time hierarchy and the unknown level "decade". -/
theorem c5_unknown_level_fallback_witness :
    HIERARCHIES.lookup "time" = some timeHierarchy ∧
    "decade" ∉ timeHierarchy.levels ∧
    drillDownGroupCols (some "time") (some "decade") = timeHierarchy.columns ∧
    rollUpGroupCols (some "time") (some "decade") =
      timeHierarchy.columns.take 1 :=
  ⟨by decide, by decide,
   ((c5_unknown_level_fallback "time" timeHierarchy (by decide)).1 "decade"
     (by decide)).1,
   ((c5_unknown_level_fallback "time" timeHierarchy (by decide)).1 "decade"
     (by decide)).2⟩

/-- Claim C10 (implicit): a drill-down or roll-up naming an unknown hierarchy
silently resolves against the "time" hierarchy — no error is produced and
the grouping columns equal those of the same request on "time". -/
theorem c10_unknown_hierarchy_fallback :
    ∀ hname : String, HIERARCHIES.lookup hname = none →
      lookupHierarchy hname = timeHierarchy ∧
      (∀ toLevel : Option String,
        drillDownGroupCols (some hname) toLevel =
          drillDownGroupCols (some "time") toLevel ∧
        rollUpGroupCols (some hname) toLevel =
          rollUpGroupCols (some "time") toLevel) := by
  intro hname hl
  have hlk : lookupHierarchy hname = timeHierarchy := by
    simp [lookupHierarchy, hl]
  have ht : lookupHierarchy "time" = timeHierarchy := by decide
  exact ⟨hlk, fun t =>
    ⟨by simp [drillDownGroupCols, drillDownIdx, hlk, ht],
     by simp [rollUpGroupCols, rollUpIdx, hlk, ht]⟩⟩

/-- Witness for C10 at the unknown hierarchy name "galaxy". -/
theorem c10_unknown_hierarchy_fallback_witness :
    HIERARCHIES.lookup "galaxy" = none ∧
    lookupHierarchy "galaxy" = timeHierarchy ∧
    drillDownGroupCols (some "galaxy") (some "month") =
      drillDownGroupCols (some "time") (some "month") :=
  ⟨by decide, (c10_unknown_hierarchy_fallback "galaxy" (by decide)).1,
   ((c10_unknown_hierarchy_fallback "galaxy" (by decide)).2 (some "month")).1⟩

/-- Claim C4 counterexample: three agents silently run a default handler on an
unknown operation instead of producing an error output — refuting the
claim that every agent's `run` errors on operations outside its supported
set. -/
theorem c4_unknown_operation_counterexample :
    kpiRunSelect "frobnicate" = Sum.inr "_overall_summary" ∧
    anomalyRunSelect "frobnicate" = Sum.inr "_monthly_anomaly" ∧
    reportRunSelect "frobnicate" = Sum.inr "_executive_summary" :=
  ⟨rfl, rfl, rfl⟩

/-- Claim C4 amended: only DimensionNavigator and CubeOperations are strict
(unknown operation yields an Agent Output with the error populated and no
result table); KPICalculator falls back to the overall summary,
AnomalyDetection to the monthly anomaly, ReportGenerator to the executive
summary, and Visualization never inspects the operation name. -/
theorem c4_unknown_operation_amended :
    ∀ op : String,
      (lowerStr op ∉ (["drill_down", "drill-down", "roll_up", "roll-up",
          "group"] : List String) →
        navRunSelect op = Sum.inl ⟨"DimensionNavigator", lowerStr op, "",
          none, "", some ("Unknown operation " ++ quoteS ++ lowerStr op ++
            quoteS ++ ". Supported: drill_down, roll_up, group"), []⟩) ∧
      (replaceDash (lowerStr op) ∉ (["slice", "dice", "pivot",
          "drill_through"] : List String) →
        cubeRunSelect op = Sum.inl ⟨"CubeOperations",
          replaceDash (lowerStr op), "", none, "",
          some ("Unknown op " ++ quoteS ++ replaceDash (lowerStr op) ++
            quoteS ++ ". Supported: slice, dice, pivot, drill_through"),
          []⟩) ∧
      (kpiDispatchTable.lookup (replaceDash (lowerStr op)) = none →
        kpiRunSelect op = Sum.inr "_overall_summary") ∧
      (lowerStr op ∉ (["time_anomaly", "monthly", "product_anomaly",
          "product"] : List String) →
        anomalyRunSelect op = Sum.inr "_monthly_anomaly") ∧
      (replaceDash (lowerStr op) ∉ (["format_table", "table",
          "executive_summary", "summary", "narrative", "trend_report",
          "trend"] : List String) →
        reportRunSelect op = Sum.inr "_executive_summary") ∧
      vizRunSelect op = Sum.inr "visualize" := by
  intro op
  refine ⟨?_, ?_, ?_, ?_, ?_, rfl⟩
  · intro hn
    simp only [List.mem_cons, List.not_mem_nil, or_false, not_or] at hn
    obtain ⟨h1, h2, h3, h4, h5⟩ := hn
    simp [navRunSelect, h1, h2, h3, h4, h5]
  · intro hn
    simp only [List.mem_cons, List.not_mem_nil, or_false, not_or] at hn
    obtain ⟨h1, h2, h3, h4⟩ := hn
    simp [cubeRunSelect, h1, h2, h3, h4]
  · intro hn
    simp [kpiRunSelect, hn]
  · intro hn
    simp only [List.mem_cons, List.not_mem_nil, or_false, not_or] at hn
    obtain ⟨h1, h2, h3, h4⟩ := hn
    simp [anomalyRunSelect, h1, h2, h3, h4]
  · intro hn
    simp only [List.mem_cons, List.not_mem_nil, or_false, not_or] at hn
    obtain ⟨h1, h2, h3, h4, h5, h6, h7⟩ := hn
    simp [reportRunSelect, h1, h2, h3, h4, h5, h6, h7]

/-- Witness for the amended C4 at the unknown operation "frobnicate". -/
theorem c4_unknown_operation_amended_witness :
    kpiDispatchTable.lookup (replaceDash (lowerStr "frobnicate")) = none ∧
    kpiRunSelect "frobnicate" = Sum.inr "_overall_summary" :=
  ⟨by decide, (c4_unknown_operation_amended "frobnicate").2.2.1 (by decide)⟩

/-- Claim C2 counterexample: the ungrouped branch of `_compare_periods` with
period-A revenue 0 (and period-B revenue 100) yields the number 0 as its
percentage delta, not a missing value — refuting "never as the number 0"
(the grouped branch, by contrast, yields the absent value). -/
theorem c2_zero_base_counterexample :
    (scalarCompare "year2023" "year2024" [0] [100]).changePct = 0 ∧
    (mergedCompare [("Europe", 0)] [("Europe", 100)]).map
      (fun r => r.revenueChangePct) = [none] := by
  constructor
  · norm_num [scalarCompare, round2]
  · simp only [mergedCompare, List.filterMap_cons, List.filterMap_nil,
      List.lookup, beq_self_eq_true, Option.map_some']
    norm_num [round2]

/-- Claim C2 amended: in the grouped comparison a zero period-A base yields an
absent percentage delta (and a nonzero base the rounded percentage); in
the ungrouped comparison a zero base — whether from a literal zero
revenue row or from an empty period-A table — yields the number 0. -/
theorem c2_zero_base_amended :
    (∀ (dfA dfB : List (String × ℚ)) (r : GroupedCmpRow),
      r ∈ mergedCompare dfA dfB →
      (r.revenueA = 0 → r.revenueChangePct = none) ∧
      (r.revenueA ≠ 0 → r.revenueChangePct =
        some (round2 ((r.revenueB - r.revenueA) / r.revenueA * 100)))) ∧
    (∀ (labA labB : String) (restA dfB : List ℚ),
      (scalarCompare labA labB (0 :: restA) dfB).changePct = 0) ∧
    (∀ (labA labB : String) (dfB : List ℚ),
      (scalarCompare labA labB [] dfB).changePct = 0) := by
  refine ⟨?_, ?_, ?_⟩
  · intro dfA dfB r hr
    simp only [mergedCompare, List.mem_filterMap] at hr
    obtain ⟨⟨d, ra⟩, hmem, hsome⟩ := hr
    cases hlk : dfB.lookup d with
    | none => simp [hlk] at hsome
    | some rb =>
        simp only [hlk, Option.map_some'] at hsome
        injection hsome with hsome
        subst hsome
        constructor
        · intro h0
          simp only at h0 ⊢
          simp [h0]
        · intro hne
          simp only at hne ⊢
          simp [hne]
  · intro labA labB restA dfB
    show round2 (if (0:ℚ) ≠ 0 then _ else 0) = 0
    norm_num [round2]
  · intro labA labB dfB
    show round2 (if (0:ℚ) ≠ 0 then _ else 0) = 0
    norm_num [round2]

/-- Witness for the amended C2: a zero-base grouped row gets an absent
delta, and a zero-base ungrouped comparison gets the number 0. -/
theorem c2_zero_base_amended_witness :
    (⟨"Europe", 0, 100, 100, none⟩ : GroupedCmpRow) ∈
      mergedCompare [("Europe", 0)] [("Europe", 100)] ∧
    (⟨"Europe", 0, 100, 100, none⟩ : GroupedCmpRow).revenueChangePct = none ∧
    (scalarCompare "a" "b" (0 :: []) []).changePct = 0 := by
  have hmem : (⟨"Europe", 0, 100, 100, none⟩ : GroupedCmpRow) ∈
      mergedCompare [("Europe", 0)] [("Europe", 100)] := by
    have : mergedCompare [("Europe", 0)] [("Europe", 100)] =
        [⟨"Europe", 0, 100, 100, none⟩] := by
      simp only [mergedCompare, List.filterMap_cons, List.filterMap_nil,
        List.lookup, beq_self_eq_true, Option.map_some']
      norm_num [round2]
    rw [this]; exact List.mem_singleton.mpr rfl
  exact ⟨hmem,
    (c2_zero_base_amended.1 [("Europe", 0)] [("Europe", 100)] _ hmem).1 rfl,
    c2_zero_base_amended.2.1 "a" "b" [] []⟩

theorem yoyGrowthList_length (s : List ℚ) :
    (yoyGrowthList s).length = s.length := by
  cases s with
  | nil => rfl
  | cons v rest => simp [yoyGrowthList]

theorem yoyGrowthList_getD (s : List ℚ) :
    ∀ i : Nat, i + 1 < s.length →
      (yoyGrowthList s).getD (i + 1) none =
        (if s.getD i 0 = 0 then none
         else some (round2
           ((s.getD (i + 1) 0 - s.getD i 0) / s.getD i 0 * 100))) := by
  induction s with
  | nil => intro i h; simp at h
  | cons a rest ih =>
      intro i h
      cases rest with
      | nil => simp at h
      | cons b t =>
          cases i with
          | zero => simp [yoyGrowthList, List.getD]
          | succ i =>
              have h' : i + 1 < (b :: t).length := by
                simpa using Nat.lt_of_succ_lt_succ h
              have heq : (yoyGrowthList (a :: b :: t)).getD (i + 2) none =
                  (yoyGrowthList (b :: t)).getD (i + 1) none := by
                simp [yoyGrowthList, List.getD]
              rw [heq, ih i h']
              simp [List.getD]

/-- Claim C6: YoY growth over a time-ordered revenue series — output length
matches the series; the first point of every (partitioned) series has an
absent growth value; every later point carries
`(cur − prev)/prev × 100` rounded to 2 decimals except that a zero
previous value yields an absent value; partitions are processed
independently; and `[100, 150, 120]` yields `[absent, +50, −20]`. -/
theorem c6_yoy_growth :
    (∀ s : List ℚ, (yoyGrowthList s).length = s.length) ∧
    (∀ (v : ℚ) (rest : List ℚ),
      (yoyGrowthList (v :: rest)).headD (some 0) = none) ∧
    (∀ (s : List ℚ) (i : Nat), i + 1 < s.length →
      (yoyGrowthList s).getD (i + 1) none =
        (if s.getD i 0 = 0 then none
         else some (round2
           ((s.getD (i + 1) 0 - s.getD i 0) / s.getD i 0 * 100)))) ∧
    (∀ (groups : List (String × List ℚ)) (g : String × List ℚ),
      g ∈ groups → (g.1, yoyGrowthList g.2) ∈ yoyGrowthGrouped groups) ∧
    yoyGrowthList [100, 150, 120] = [none, some 50, some (-20)] := by
  refine ⟨yoyGrowthList_length, ?_, yoyGrowthList_getD, ?_, ?_⟩
  · intro v rest; simp [yoyGrowthList]
  · intro groups g hg
    exact List.mem_map.mpr ⟨g, hg, rfl⟩
  · norm_num [yoyGrowthList, round2]

/-- Witness for C6 at the series `[100, 150, 120]`, point 1. -/
theorem c6_yoy_growth_witness :
    (yoyGrowthList [(100:ℚ), 150, 120]).getD 1 none = some 50 := by
  have h := c6_yoy_growth.2.2.1 [(100:ℚ), 150, 120] 0 (by norm_num)
  rw [h]
  norm_num [round2]

theorem step_unknown_cube (acc : List String × List PyVal) (k : String)
    (v : PyVal) (h : cubeColMap.lookup k = none) :
    cubeWhereStep acc (k, v) = acc := by
  simp [cubeWhereStep, h]

theorem step_unknown_nav (acc : List String × List PyVal) (k : String)
    (v : PyVal) (h : navColMap.lookup k = none) :
    navWhereStep acc (k, v) = acc := by
  simp [navWhereStep, h]

theorem step_unknown_kpi (acc : List String × List PyVal) (k : String)
    (v : PyVal) (h : kpiColMap.lookup k = none) :
    kpiWhereStep acc (k, v) = acc := by
  simp [kpiWhereStep, h]

/-- Claim C8 counterexample: a `gte` range object is compiled to a one-sided
inequality only by the cube-operations builder; the navigator's and the
KPI calculator's builders have no range branch and compile the same
entry to an equality predicate binding the raw dict — refuting "every
filter-compiling path" applies the range rule. -/
theorem c8_filter_rules_counterexample :
    navBuildWhere [("year", PyVal.vdict [("gte", PyVal.num 2023)])] =
      (["d.year = ?"], [PyVal.vdict [("gte", PyVal.num 2023)]]) ∧
    kpiBuildWhere [("year", PyVal.vdict [("gte", PyVal.num 2023)])] =
      (["d.year = ?"], [PyVal.vdict [("gte", PyVal.num 2023)]]) ∧
    cubeBuildWhere [("year", PyVal.vdict [("gte", PyVal.num 2023)])] =
      (["d.year >= ?"], [PyVal.num 2023]) :=
  ⟨rfl, rfl, rfl⟩

/-- Claim C8 amended: in every filter-compiling path an unrecognized dimension
key contributes no predicate and no bind (dropped without error); a list
value contributes one membership predicate with one bind per element in
order; a scalar contributes one equality predicate with one bind; but
only the cube-operations builder compiles `gte`/`lte` range objects to
one-sided inequalities (`gte` checked first) — the navigator and KPI
builders compile a range object as a scalar equality binding the dict
itself. -/
theorem c8_filter_rules_amended :
    ∀ (pre post : List (String × PyVal)) (k : String) (v : PyVal)
      (acc : List String × List PyVal),
      (cubeColMap.lookup k = none →
        cubeBuildWhere (pre ++ (k, v) :: post) =
          cubeBuildWhere (pre ++ post)) ∧
      (navColMap.lookup k = none →
        navBuildWhere (pre ++ (k, v) :: post) = navBuildWhere (pre ++ post)) ∧
      (kpiColMap.lookup k = none →
        kpiBuildWhere (pre ++ (k, v) :: post) = kpiBuildWhere (pre ++ post)) ∧
      (∀ col, cubeColMap.lookup k = some col →
        (∀ vs, cubeWhereStep acc (k, PyVal.vlist vs) =
          (acc.1 ++ [col ++ " IN (" ++
            String.intercalate "," (List.replicate vs.length "?") ++ ")"],
           acc.2 ++ vs)) ∧
        (∀ es g, es.lookup "gte" = some g →
          cubeWhereStep acc (k, PyVal.vdict es) =
            (acc.1 ++ [col ++ " >= ?"], acc.2 ++ [g])) ∧
        (∀ es l, es.lookup "gte" = none → es.lookup "lte" = some l →
          cubeWhereStep acc (k, PyVal.vdict es) =
            (acc.1 ++ [col ++ " <= ?"], acc.2 ++ [l])) ∧
        (∀ q, cubeWhereStep acc (k, PyVal.num q) =
          (acc.1 ++ [col ++ " = ?"], acc.2 ++ [PyVal.num q])) ∧
        (∀ s, cubeWhereStep acc (k, PyVal.str s) =
          (acc.1 ++ [col ++ " = ?"], acc.2 ++ [PyVal.str s]))) ∧
      (∀ col, navColMap.lookup k = some col →
        (∀ vs, navWhereStep acc (k, PyVal.vlist vs) =
          (acc.1 ++ [col ++ " IN (" ++
            String.intercalate "," (List.replicate vs.length "?") ++ ")"],
           acc.2 ++ vs)) ∧
        (∀ es, navWhereStep acc (k, PyVal.vdict es) =
          (acc.1 ++ [col ++ " = ?"], acc.2 ++ [PyVal.vdict es]))) ∧
      (∀ col, kpiColMap.lookup k = some col →
        ∀ es, kpiWhereStep acc (k, PyVal.vdict es) =
          (acc.1 ++ [col ++ " = ?"], acc.2 ++ [PyVal.vdict es])) := by
  intro pre post k v acc
  refine ⟨?_, ?_, ?_, ?_, ?_, ?_⟩
  · intro h
    simp [cubeBuildWhere, List.foldl_append, List.foldl_cons,
      step_unknown_cube _ _ _ h]
  · intro h
    simp [navBuildWhere, List.foldl_append, List.foldl_cons,
      step_unknown_nav _ _ _ h]
  · intro h
    simp [kpiBuildWhere, List.foldl_append, List.foldl_cons,
      step_unknown_kpi _ _ _ h]
  · intro col hcol
    refine ⟨?_, ?_, ?_, ?_, ?_⟩
    · intro vs; simp [cubeWhereStep, hcol]
    · intro es g hg
      simp [cubeWhereStep, hcol, dictHasKey, dictGet, hg]
    · intro es l hg hl
      simp [cubeWhereStep, hcol, dictHasKey, dictGet, hg, hl]
    · intro q; simp [cubeWhereStep, hcol]
    · intro s; simp [cubeWhereStep, hcol]
  · intro col hcol
    exact ⟨fun vs => by simp [navWhereStep, hcol],
      fun es => by simp [navWhereStep, hcol]⟩
  · intro col hcol
    intro es; simp [kpiWhereStep, hcol]

/-- Witness for the amended C8: a recognized key with a range object in
the navigator's builder compiles to an equality on the dict. -/
theorem c8_filter_rules_amended_witness :
    navColMap.lookup "year" = some "d.year" ∧
    navWhereStep ([], []) ("year", PyVal.vdict [("gte", PyVal.num 2023)]) =
      ([("d.year" ++ " = ?")], [PyVal.vdict [("gte", PyVal.num 2023)]]) :=
  ⟨by decide,
   ((c8_filter_rules_amended [] [] "year" PyVal.vnone ([], [])).2.2.2.2.1
     "d.year" (by decide)).2 [("gte", PyVal.num 2023)]⟩

/-- Claim C7 counterexample: on the monthly series
`[300, -300, 0, 0, 0, 0, 0, 0, 0]` the first point has population
z-score `sqrt(4.5) = 2.1213... > 2` (the specification's formula would
flag it) but the code computes z from the pandas sample standard
deviation (ddof=1), giving exactly `z = 2.0`; its stored rounded value
`round(2.0, 3) = 2.0` is not `> 2.0`, so the point is not flagged and
its type is "Normal" — the code does not use the population standard
deviation. -/
theorem c7_zscore_counterexample :
    ¬ zAnomaly [300, -300, 0, 0, 0, 0, 0, 0, 0] 0 ∧
    popAnomaly [300, -300, 0, 0, 0, 0, 0, 0, 0] 0 ∧
    zAnomalyType [300, -300, 0, 0, 0, 0, 0, 0, 0] 0 = "Normal" := by
  refine ⟨?_, ?_, ?_⟩
  · norm_num [zAnomaly, sampleVar, listMean]
  · norm_num [popAnomaly, popVar, listMean]
  · rw [zAnomalyType, if_neg]
    norm_num [zAnomaly, sampleVar, listMean]

/-- Claim C7 amended: z-scores use the sample standard deviation (pandas
`std()`, ddof=1), not the population one; the stored z-score is rounded
to 3 decimals (numpy half-to-even) and a point is flagged exactly when
that rounded value exceeds 2.0 in absolute value, which is exactly
`|z| > 4001/2000` (= 2.0005) since half-even rounding sends the tie
`2000.5/1000` down to `2.000` — the first conjunct states the flag
against the real-valued z built from the square root of the sample
variance, and the second conjunct proves the threshold claim about
rounding itself: for any real `x` and any integer `n` that is its
nearest-integer rounding with ties to even, `n > 2000` iff `x > 4001/2`
(apply it to `x = 1000·z`, `n = 1000·round(z, 3)`).  "High"/"Low"
classify the flagged point by the sign of `value − mean` (the sign of
the rounded z); and a zero sample variance (in particular any constant
series) flags nothing and classifies every point "Normal" — the guard is
the NaN-comparison behaviour modelled by the variance-positivity
conjunct, not an explicit branch. -/
theorem c7_zscore_amended :
    ∀ (l : List ℚ) (i : Nat),
      (zAnomaly l i ↔ 0 < sampleVar l ∧
        (4001 / 2000) * Real.sqrt ((sampleVar l : ℚ) : ℝ) <
          |((l.getD i 0 : ℚ) : ℝ) - ((listMean l : ℚ) : ℝ)|) ∧
      (∀ (x : ℝ) (n : ℤ),
        (|x - n| < 1 / 2 ∨ (|x - n| = 1 / 2 ∧ Even n)) →
        ((2000 < n ↔ (4001 : ℝ) / 2 < x) ∧
         (n < -2000 ↔ x < -((4001 : ℝ) / 2)))) ∧
      (zAnomalyType l i = "High" ↔ zAnomaly l i ∧ listMean l < l.getD i 0) ∧
      (zAnomalyType l i = "Low" ↔ zAnomaly l i ∧ l.getD i 0 < listMean l) ∧
      (sampleVar l = 0 → ¬ zAnomaly l i ∧ zAnomalyType l i = "Normal") ∧
      (∀ (n : Nat) (c : ℚ), sampleVar (List.replicate n c) = 0) := by
  intro l i
  have habs : ∀ (hv : 0 < sampleVar l),
      (4001 ^ 2 * sampleVar l <
          2000 ^ 2 * (l.getD i 0 - listMean l) ^ 2 ↔
        (4001 / 2000) * Real.sqrt ((sampleVar l : ℚ) : ℝ) <
          |((l.getD i 0 : ℚ) : ℝ) - ((listMean l : ℚ) : ℝ)|) := by
    intro hv
    have hvR : (0:ℝ) ≤ ((sampleVar l : ℚ) : ℝ) := by
      have := le_of_lt hv
      exact_mod_cast this
    have h2 : Real.sqrt (((4001:ℝ) / 2000) ^ 2 *
        ((sampleVar l : ℚ) : ℝ)) =
        ((4001:ℝ) / 2000) * Real.sqrt ((sampleVar l : ℚ) : ℝ) := by
      rw [Real.sqrt_mul (by positivity), Real.sqrt_sq (by norm_num)]
    have hid : (2000:ℝ) ^ 2 * (((4001:ℝ) / 2000) ^ 2 *
        ((sampleVar l : ℚ) : ℝ)) = 4001 ^ 2 * ((sampleVar l : ℚ) : ℝ) := by
      ring
    have hiff : ((4001:ℝ) / 2000) ^ 2 * ((sampleVar l : ℚ) : ℝ) <
        (((l.getD i 0 : ℚ) : ℝ) - ((listMean l : ℚ) : ℝ)) ^ 2 ↔
        (4001:ℝ) ^ 2 * ((sampleVar l : ℚ) : ℝ) <
          2000 ^ 2 * (((l.getD i 0 : ℚ) : ℝ) - ((listMean l : ℚ) : ℝ)) ^ 2 := by
      rw [← mul_lt_mul_left (show (0:ℝ) < 2000 ^ 2 by norm_num), hid]
    rw [← h2, ← Real.sqrt_sq_eq_abs,
      Real.sqrt_lt_sqrt_iff (by positivity), hiff]
    constructor
    · intro h
      have hq : (4001:ℚ) ^ 2 * sampleVar l <
          2000 ^ 2 * (l.getD i 0 - listMean l) ^ 2 := h
      exact_mod_cast hq
    · intro h
      exact_mod_cast h
  have hvne : zAnomaly l i → l.getD i 0 ≠ listMean l := by
    intro hz he
    have h2 := hz.2
    rw [he, sub_self] at h2
    norm_num at h2
    linarith [hz.1]
  refine ⟨?_, ?_, ?_, ?_, ?_, ?_⟩
  · constructor
    · rintro ⟨hv, hlt⟩
      exact ⟨hv, (habs hv).mp hlt⟩
    · rintro ⟨hv, hlt⟩
      exact ⟨hv, (habs hv).mpr hlt⟩
  · intro x n h
    have hle : |x - n| ≤ 1 / 2 := by
      rcases h with h1 | ⟨h2, -⟩
      · exact le_of_lt h1
      · exact le_of_eq h2
    have habsle := abs_le.mp hle
    constructor
    · constructor
      · intro hn
        rcases h with h1 | ⟨h2, heven⟩
        · have hn2 : (2001:ℝ) ≤ n := by exact_mod_cast hn
          have := (abs_lt.mp h1).1
          linarith
        · rcases (abs_eq (by norm_num : (0:ℝ) ≤ 1 / 2)).mp h2 with he | he
          · have hn2 : (2001:ℝ) ≤ n := by exact_mod_cast hn
            linarith
          · have hn3 : (2002:ℤ) ≤ n := by
              rcases heven with ⟨k, hk⟩
              omega
            have hn2 : (2002:ℝ) ≤ n := by exact_mod_cast hn3
            linarith
      · intro hx
        have : (2000:ℝ) < n := by linarith [habsle.2]
        exact_mod_cast this
    · constructor
      · intro hn
        rcases h with h1 | ⟨h2, heven⟩
        · have hn2 : (n:ℝ) ≤ -2001 := by
            exact_mod_cast (show n ≤ -2001 by omega)
          have := (abs_lt.mp h1).2
          linarith
        · rcases (abs_eq (by norm_num : (0:ℝ) ≤ 1 / 2)).mp h2 with he | he
          · have hn3 : n ≤ -2002 := by
              rcases heven with ⟨k, hk⟩
              omega
            have hn2 : (n:ℝ) ≤ -2002 := by exact_mod_cast hn3
            linarith
          · have hn2 : (n:ℝ) ≤ -2001 := by
              exact_mod_cast (show n ≤ -2001 by omega)
            linarith
      · intro hx
        have : (n:ℝ) < -2000 := by linarith [habsle.1]
        exact_mod_cast this
  · by_cases hz : zAnomaly l i
    · by_cases hm : listMean l < l.getD i 0
      · simp only [zAnomalyType, if_pos hz, if_pos hm]
        exact ⟨fun _ => ⟨hz, hm⟩, fun _ => trivial⟩
      · simp only [zAnomalyType, if_pos hz, if_neg hm]
        constructor
        · intro hc; exact absurd hc (by decide)
        · rintro ⟨-, hmm⟩; exact absurd hmm hm
    · simp only [zAnomalyType, if_neg hz]
      constructor
      · intro hc; exact absurd hc (by decide)
      · rintro ⟨hzz, -⟩; exact absurd hzz hz
  · by_cases hz : zAnomaly l i
    · by_cases hm : listMean l < l.getD i 0
      · simp only [zAnomalyType, if_pos hz, if_pos hm]
        constructor
        · intro hc; exact absurd hc (by decide)
        · rintro ⟨-, hlt⟩; exact absurd hlt (asymm hm)
      · simp only [zAnomalyType, if_pos hz, if_neg hm]
        exact ⟨fun _ => ⟨hz, lt_of_le_of_ne (not_lt.mp hm) (hvne hz)⟩,
          fun _ => trivial⟩
    · simp only [zAnomalyType, if_neg hz]
      constructor
      · intro hc; exact absurd hc (by decide)
      · rintro ⟨hzz, -⟩; exact absurd hzz hz
  · intro h0
    have hnz : ¬ zAnomaly l i := by
      intro hz
      have h1 := hz.1
      rw [h0] at h1
      exact lt_irrefl 0 h1
    exact ⟨hnz, by rw [zAnomalyType, if_neg hnz]⟩
  · intro n c
    cases n with
    | zero => simp [sampleVar, listMean]
    | succ m =>
        have hne : ((m + 1 : ℕ) : ℚ) ≠ 0 := by
          exact_mod_cast Nat.succ_ne_zero m
        have hmean : listMean (List.replicate (m + 1) c) = c := by
          simp only [listMean, List.sum_replicate, List.length_replicate,
            nsmul_eq_mul]
          exact mul_div_cancel_left₀ c hne
        simp [sampleVar, hmean, List.map_replicate, List.sum_replicate]

/-- Witness for the amended C7 at the degenerate one-point series. -/
theorem c7_zscore_amended_witness :
    ¬ zAnomaly [(1:ℚ)] 0 ∧ zAnomalyType [(1:ℚ)] 0 = "Normal" :=
  (c7_zscore_amended [(1:ℚ)] 0).2.2.2.2.1 (by norm_num [sampleVar, listMean])

/-- Claim C9: the deterministic fallback planner maps the text
"compare 2023 and 2024 by region" to a plan whose first step is
`compare_periods` with `period_a={year:2023}`, `period_b={year:2024}`,
`group_by="region"`; and for every input text (and every fallback-error
annotation) the plan's last step is the executive-summary report step. -/
theorem c9_fallback_planner :
    ((ruleBasedPlan "compare 2023 and 2024 by region" "").steps.head? =
      some ⟨"KPICalculator", "compare_periods", PyVal.vdict
        [("period_a", PyVal.vdict [("year", PyVal.num 2023)]),
         ("period_b", PyVal.vdict [("year", PyVal.num 2024)]),
         ("group_by", PyVal.str "region")]⟩) ∧
    (∀ (query fallbackError : String),
      (ruleBasedPlan query fallbackError).steps.getLast? =
        some ⟨"ReportGenerator", "executive_summary", PyVal.vdict []⟩) := by
  constructor
  · rfl
  · intro q e
    show (ruleBasedPrimarySteps q ++
      [(⟨"ReportGenerator", "executive_summary",
        PyVal.vdict []⟩ : PlanStep)]).getLast? = _
    rw [List.getLast?_concat]

theorem processOutputs_length
    (agents : String → Option AgentFun) (query : String)
    (plan : List PlanStep) :
    (processOutputs agents query plan).length =
      (plan.filter (fun s => (agents s.agent).isSome)).length := by
  induction plan with
  | nil => rfl
  | cons s rest ih =>
      cases h : agents s.agent with
      | none =>
          simp [processOutputs, List.filterMap_cons, List.filter_cons,
            runPlanStep, h] at *
          exact ih
      | some run =>
          simp [processOutputs, List.filterMap_cons, List.filter_cons,
            runPlanStep, h] at *
          exact ih

theorem processLedger_success
    (agents : String → Option AgentFun) (query : String)
    (plan : List PlanStep) :
    (processLedger agents query plan).map (fun e => e.success) =
      (processOutputs agents query plan).map (fun o => o.error.isNone) := by
  induction plan with
  | nil => rfl
  | cons s rest ih =>
      cases h : agents s.agent with
      | none =>
          simp [processLedger, processOutputs, List.filterMap_cons,
            runPlanStep, h] at *
          exact ih
      | some run =>
          simp [processLedger, processOutputs, List.filterMap_cons,
            runPlanStep, h, ledgerOf] at *
          exact ih

theorem narrativeOf_eq_specNarrative (outs : List AgentOutput)
    (h : ∀ o ∈ outs, o.error = some "" → o.summary = "") :
    narrativeOf outs = specNarrative outs := by
  have hf : outs.filter (fun o => !o.summary.isEmpty && falsyErr o.error) =
      outs.filter (fun o => o.error.isNone && !o.summary.isEmpty) := by
    apply List.filter_congr
    intro o ho
    cases he : o.error with
    | none => simp [falsyErr, he, Bool.and_comm]
    | some e =>
        by_cases hee : e = ""
        · subst hee
          have hsum : o.summary = "" := h o ho he
          simp [falsyErr, he, hsum]
        · have hb : e.isEmpty = false := by
            cases hb2 : e.isEmpty
            · rfl
            · exact absurd ((String.isEmpty_iff e).mp hb2) hee
          simp [falsyErr, he, hb]
  rw [narrativeOf, specNarrative, hf]

/-- Claim C1: the plan executor isolates failures per step — an exception from
one step's `run` is caught and becomes a failed Agent Output (error
populated, no result table), every resolvable step still executes (the
output count equals the count of resolvable steps, and execution of a
plan splits as the concatenation of its parts, so later steps are
unaffected by earlier failures); the ledger marks each executed step
`success = (error is None)`; and the narrative is the plan-order
concatenation of the non-error steps' (nonempty) summaries, with the
fixed placeholder "No results generated." when there are none. -/
theorem c1_plan_executor_isolation
    (agents : String → Option AgentFun) (query : String)
    (plan : List PlanStep) (hne : noBlankErrOutputs agents query plan) :
    (processOutputs agents query plan).length =
      (plan.filter (fun s => (agents s.agent).isSome)).length ∧
    (processLedger agents query plan).map (fun e => e.success) =
      (processOutputs agents query plan).map (fun o => o.error.isNone) ∧
    (∀ (s : PlanStep) (run : AgentFun) (e : String),
      agents s.agent = some run →
      run ⟨s.operation, s.parameters, some query⟩ = Except.error e →
      runPlanStep agents query s =
        some ⟨s.agent, s.operation, "", none, "", some e, []⟩) ∧
    (∀ pre post : List PlanStep,
      processOutputs agents query (pre ++ post) =
        processOutputs agents query pre ++ processOutputs agents query post) ∧
    processNarrative agents query plan =
      specNarrative (processOutputs agents query plan) := by
  refine ⟨processOutputs_length agents query plan,
    processLedger_success agents query plan, ?_, ?_, ?_⟩
  · intro s run e hag hrun
    simp [runPlanStep, hag, hrun]
  · intro pre post
    simp [processOutputs, List.filterMap_append]
  · exact narrativeOf_eq_specNarrative _ hne

/-- Witness for C1: a two-step plan whose first step raises and whose
second succeeds yields two outputs, a ledger `[false, true]`, and a
narrative containing exactly the succeeding step's summary. -/
theorem c1_plan_executor_isolation_witness :
    noBlankErrOutputs wAgents "q" wPlan ∧
    processNarrative wAgents "q" wPlan =
      specNarrative (processOutputs wAgents "q" wPlan) ∧
    (processOutputs wAgents "q" wPlan).length = 2 ∧
    (processLedger wAgents "q" wPlan).map (fun e => e.success) =
      [false, true] ∧
    processNarrative wAgents "q" wPlan = "Hello result" := by
  have hpo : processOutputs wAgents "q" wPlan =
      [⟨"FailAgent", "op1", "", none, "", some "boom", []⟩, wOkOutput] := rfl
  have hne : noBlankErrOutputs wAgents "q" wPlan := by
    intro o ho h
    rw [hpo] at ho
    rcases List.mem_cons.mp ho with h1 | h2
    · subst h1
      injection h with hh
      exact absurd hh (by decide)
    · rcases List.mem_singleton.mp h2 with rfl
      cases h
  refine ⟨hne,
    (c1_plan_executor_isolation wAgents "q" wPlan hne).2.2.2.2, rfl, rfl, rfl⟩
